import Mathlib

/-!
Verification of the Adaptive RAG workflow engine.

A shallow embedding of the core of the repository: the LangGraph node and
router functions (`src/graph/func/graph_func.py`), the state merge semantics
(`src/graph/state/graph_state.py`), the graph topology and executor loop
(`src/graph/node/graph_main.py`), the web-search tool
(`src/tools/udf_tools.py`), and the SSE streaming adapter
(`src/api/routers/chat.py`).

External collaborators (the retriever, the language model, the Tavily search
client) are modelled as oracle inputs: every theorem quantifies over all
possible responses they can return.  Machine-level Python details that the
control flow depends on are modelled explicitly:

* `llm_json_response` (src/llm/qwen.py, `return response` after the
  `isinstance(response, BaseMessage)` checks) returns the *message object*,
  not its content string.  `route_question` and
  `grade_generation_v_documents_and_question` parse `result_str.content`;
  `grade_documents` passes the message object itself to `json.loads`, which
  raises `TypeError` for non-string input — an exception that is *not* a
  `json.JSONDecodeError` and is therefore caught by the generic
  `except Exception` handler of the per-document loop.
* the `loop_step` channel of `GraphState` is declared
  `Annotated[int, operator.add]`, so a node's `loop_step` delta is *added*
  to the current value.
* Python string slicing `s[n:]` and `s[:n]` over code points.
-/

/-- A parsed-JSON value as far as the engine inspects it.  `obj fields`
is a JSON object whose relevant fields are strings (the graders' schema);
`notObj` stands for any successfully parsed document on which the
subsequent `dict.get` / `str.lower` attribute access raises (a non-object
JSON document, or an object whose graded field is not a string);
`notJson` stands for text rejected by `json.loads` with
`json.JSONDecodeError`. -/
inductive ParsedJson
  | notJson
  | notObj
  | obj (fields : List (String × String))
  deriving DecidableEq, Repr

/-- Outcome of one `llm_json_response` structured call: either the call
itself raised (transport failure), or it returned a `BaseMessage` whose
`.content` string parses as `parsed`. -/
inductive StructuredCall
  | raised
  | returned (parsed : ParsedJson)
  deriving DecidableEq, Repr

/-- A metadata value of a LangChain `Document` (string / int / list of
strings are the shapes `tavily_search` writes). -/
inductive MetaVal
  | str (s : String)
  | num (n : Nat)
  | list (l : List String)
  deriving DecidableEq, Repr

/-- LangChain `Document`: page content plus a string-keyed metadata map. -/
structure Document where
  page_content : String
  metadata : List (String × MetaVal)
  deriving DecidableEq, Repr

/-- One entry of Tavily's `results` array as consumed by
`UdfTools.tavily_search`: the `content` snippet and the `url`
(`result.get("url", "")`, hence total). -/
structure TavilyResult where
  content : String
  url : String
  deriving DecidableEq, Repr

/-- Python `s[n:]` (slice from code point `n`; empty when `n ≥ len(s)`). -/
def str_slice_from (s : String) (n : Nat) : String :=
  String.mk (s.data.drop n)

/-- Python `s[:n]` (slice up to code point `n`). -/
def str_slice_to (s : String) (n : Nat) : String :=
  String.mk (s.data.take n)

/-- Python `str.lower()`, code point by code point (the engine only
compares it against the ASCII literals `"yes"` and `"websearch"`). -/
def py_lower (s : String) : String :=
  String.mk (s.data.map Char.toLower)

/-- Embedding of `UdfTools.format_docs`: join the page contents with a newline. -/
def format_docs (docs : List Document) : String :=
  String.intercalate "\n" (docs.map Document.page_content)

/-- Effect of `html.escape` on one character (quote=True: `&`, `<`, `>`, `"` and the
apostrophe are escaped). -/
def escape_char (c : Char) : String :=
  if c = '&' then "&amp;"
  else if c = '<' then "&lt;"
  else if c = '>' then "&gt;"
  else if c = '"' then "&quot;"
  else if c = Char.ofNat 39 then "&#x27;"
  else String.singleton c

/-- Embedding of `sanitize_html` of src/api/routers/chat.py: `html.escape(text)`. -/
def sanitize_html (text : String) : String :=
  String.join (text.data.map escape_char)

/-! Node functions (src/graph/func/graph_func.py) -/

/-- The `generate` node's returned delta
(`{"generation": answer, "loop_step": loop_step + 1}` at
graph_func.py:199): the generated answer together with the `loop_step`
value it contributes, computed from the `loop_step` read out of the
current state. -/
def generate (loop_step : Nat) (answer : String) : String × Nat :=
  (answer, loop_step + 1)

/-- The merge rule of the `loop_step` channel
(`loop_step: Annotated[int, operator.add]`, graph_state.py:129): a node's
delta is added to the current value. -/
def merge_loop_step (current delta : Nat) : Nat :=
  current + delta

/-- The merged `loop_step` after one `generate` invocation: the node reads
`s`, returns the delta `s + 1`, and the channel adds it to `s`. -/
def loop_step_after_generate (s : Nat) : Nat :=
  merge_loop_step s (generate s "").2

/-- The per-document keep decision of the `grade_documents` loop
(graph_func.py:255-284).  `result_str` is the message object returned by
`llm_json_response` (src/llm/qwen.py returns the `BaseMessage` itself);
`json.loads(result_str)` therefore raises `TypeError` whenever the call
returned, and a raising call is caught the same way: in both cases the
generic `except Exception` handler appends the document
("保守策略:评估失败时保留文档"). -/
def keep_document (call : StructuredCall) : Bool :=
  match call with
  | .raised => true        -- LLM call raised → except Exception → retain
  | .returned _ => true    -- json.loads(BaseMessage) raises TypeError → except Exception → retain

/-- The filtering loop of `grade_documents`: the `i`-th document is kept
according to the outcome of its grading call `resp i`. -/
def grade_documents_filter (resp : Nat → StructuredCall) :
    List Document → Nat → List Document
  | [], _ => []
  | d :: rest, i =>
      if keep_document (resp i) then d :: grade_documents_filter resp rest (i + 1)
      else grade_documents_filter resp rest (i + 1)

/-- Embedding of `grade_documents` (graph_func.py:209-300): filter the documents by the
per-document grading calls, then set `web_search` to `"yes"` iff no
document survived (`if len(filtered_documents) == 0`). -/
def grade_documents (docs : List Document) (resp : Nat → StructuredCall) :
    List Document × String :=
  let filtered := grade_documents_filter resp docs 0
  (filtered, if filtered.length = 0 then "yes" else "no")

/-- The Document built by `UdfTools.tavily_search(..., output_format="document")`
(udf_tools.py:279-297): page content is the newline-join of the result
snippets, metadata records source `"tavily_search"`, the query, the call
timestamp, the number of results, their urls and the engine name. -/
def tavily_search_document (query : String) (results : List TavilyResult)
    (timestamp : String) : Document :=
  { page_content := String.intercalate "\n" (results.map TavilyResult.content),
    metadata :=
      [("source", MetaVal.str "tavily_search"),
       ("query", MetaVal.str query),
       ("search_timestamp", MetaVal.str timestamp),
       ("num_results", MetaVal.num results.length),
       ("urls", MetaVal.list (results.map TavilyResult.url)),
       ("search_engine", MetaVal.str "tavily")] }

/-- The `web_search` node (graph_func.py:303-354), value level: append the
single Tavily result document to the current documents
(`documents.append(search_result["content"])`). -/
def web_search (question : String) (docs : List Document)
    (results : List TavilyResult) (timestamp : String) : List Document :=
  docs ++ [tavily_search_document question results timestamp]

/-! Router functions -/

/-- Embedding of `route_question` (graph_func.py:360-424): parse
`result_str.content`, read `datasource` with default `"vectorstore"`,
route to `"websearch"` on a case-insensitive match; every failure
(transport raise, `json.JSONDecodeError`, attribute error on a non-object
document) falls into a handler that returns `"vectorstore"`. -/
def route_question (call : StructuredCall) : String :=
  match call with
  | .raised => "vectorstore"            -- except Exception → default
  | .returned .notJson => "vectorstore" -- except json.JSONDecodeError → default
  | .returned .notObj => "vectorstore"  -- AttributeError → except Exception → default
  | .returned (.obj fields) =>
      let datasource := (fields.lookup "datasource").getD "vectorstore"
      if py_lower datasource = "websearch" then "websearch" else "vectorstore"

/-- Embedding of `decide_to_generate` (graph_func.py:427-476). -/
def decide_to_generate (web_search_flag : String) : String :=
  if py_lower web_search_flag = "yes" then "websearch" else "generate"

/-- Outcome of one grader check inside
`grade_generation_v_documents_and_question`: either a binary-score string
was obtained, or an exception escaped the inner `try` (which catches only
`json.JSONDecodeError`) into the outer handler. -/
inductive GradeOutcome
  | grade (s : String)
  | exnToOuter
  deriving DecidableEq, Repr

/-- One grader check of `grade_generation_v_documents_and_question`
(graph_func.py:542-551 and 562-571): a transport raise escapes to the
outer handler; `json.JSONDecodeError` is caught and the grade defaults to
`"no"`; a parsed non-object escapes (AttributeError) to the outer
handler; an object yields `result.get("binary_score", "no")`. -/
def binary_score_of (call : StructuredCall) : GradeOutcome :=
  match call with
  | .raised => .exnToOuter
  | .returned .notJson => .grade "no"
  | .returned .notObj => .exnToOuter
  | .returned (.obj fields) => .grade ((fields.lookup "binary_score").getD "no")

/-- Embedding of `grade_generation_v_documents_and_question` (graph_func.py:479-597):
two-phase grading with the retry predicate `loop_step <= max_retries`;
any exception reaching the outer handler yields `"max retries"`. -/
def grade_generation_v_documents_and_question (hall ans : StructuredCall)
    (loop_step max_retries : Nat) : String :=
  match binary_score_of hall with
  | .exnToOuter => "max retries"        -- outer except Exception → "max retries"
  | .grade hallucination_grade =>
      if py_lower hallucination_grade = "yes" then
        match binary_score_of ans with
        | .exnToOuter => "max retries"  -- outer except Exception → "max retries"
        | .grade answer_grade =>
            if py_lower answer_grade = "yes" then "useful"
            else if loop_step ≤ max_retries then "not useful"
            else "max retries"
      else
        if loop_step ≤ max_retries then "not supported"
        else "max retries"

example : route_question (.returned (.obj [("datasource", "WebSearch")])) = "websearch" := by decide
example : route_question (.returned (.obj [("source", "websearch")])) = "vectorstore" := by decide
example : grade_generation_v_documents_and_question (.returned .notJson)
    (.returned (.obj [("binary_score", "yes")])) 0 3 = "not supported" := by decide
example : grade_generation_v_documents_and_question (.returned (.obj [("binary_score", "yes")]))
    (.returned .notJson) 4 3 = "max retries" := by decide
example : loop_step_after_generate (loop_step_after_generate 0) = 3 := by decide

/-! Graph topology and executor (src/graph/node/graph_main.py)

`GraphMain._set_graph` builds: conditional entry by `route_question`
(`{"websearch": "websearch", "vectorstore": "retrieve"}`), static edges
`retrieve → grade_documents` and `websearch → generate`, a conditional
edge out of `grade_documents` by `decide_to_generate`
(`{"websearch": "websearch", "generate": "generate"}`), and a conditional
edge out of `generate` by `grade_generation_v_documents_and_question`
(`{"useful": END, "not supported": "generate", "max retries": END,
"not useful": "websearch"}`).  The executor runs one node at a time,
merges its delta into the state (replacement everywhere except the
additive `loop_step` channel), and evaluates the conditional edge on the
merged state. -/

/-- The graph's nodes plus the `END` marker. -/
inductive GNode
  | retrieve
  | gradeDocuments
  | generate
  | websearch
  | terminal
  deriving DecidableEq, Repr

/-- The merged run state carried between nodes (`GraphState`,
graph_state.py:124-132, restricted to the fields the nodes read and
write; `question` and `max_retries` come from the initial input and no
node writes them). -/
structure RunState where
  question : String
  loopStep : Nat
  maxRetries : Nat
  webSearchFlag : String
  documents : List Document
  generation : Option String
  deriving Repr

/-- The run's external environment: the outcome of every retriever /
language-model / web-search call the nodes may make.  Grader calls for
the `n`-th `generate` pass are indexed by `n`; web-search results by the
number of earlier `websearch` passes; document-grading calls by document
position. -/
structure Oracle where
  routeCall : StructuredCall
  retrieved : List Document
  docGradeCall : Nat → StructuredCall
  genAnswer : Nat → String
  hallCall : Nat → StructuredCall
  ansCall : Nat → StructuredCall
  webResults : Nat → List TavilyResult
  webTimestamp : Nat → String

/-- Successor of the conditional entry edge
(`{"websearch": "websearch", "vectorstore": "retrieve"}`;
`route_question` returns no other label). -/
def entry_target (label : String) : GNode :=
  if label = "websearch" then GNode.websearch else GNode.retrieve

/-- Successor of the conditional edge out of `grade_documents`
(`{"websearch": "websearch", "generate": "generate"}`). -/
def decide_edge_target (label : String) : GNode :=
  if label = "websearch" then GNode.websearch else GNode.generate

/-- Successor of the conditional edge out of `generate`
(`{"useful": END, "not supported": "generate", "max retries": END,
"not useful": "websearch"}`; `grade_generation_v_documents_and_question`
returns no label outside this mapping). -/
def grade_edge_target (label : String) : GNode :=
  if label = "useful" then GNode.terminal
  else if label = "not supported" then GNode.generate
  else if label = "not useful" then GNode.websearch
  else GNode.terminal

/-- Fuel-bounded executor loop: starting at `node` with merged state
`st`, after `genIdx` earlier `generate` passes and `webIdx` earlier
`websearch` passes, return the sequence of nodes the run executes.
Each case performs the node's delta merge and then follows the edge out
of that node. -/
def runTrace (o : Oracle) : Nat → Nat → Nat → GNode → RunState → List GNode
  | 0, _, _, _, _ => []
  | _ + 1, _, _, GNode.terminal, _ => []
  | fuel + 1, genIdx, webIdx, GNode.retrieve, st =>
      -- retrieve returns {"documents": retriever.invoke(question)}
      GNode.retrieve ::
        runTrace o fuel genIdx webIdx GNode.gradeDocuments
          { st with documents := o.retrieved }
  | fuel + 1, genIdx, webIdx, GNode.gradeDocuments, st =>
      -- grade_documents returns {"documents": filtered, "web_search": flag},
      -- then decide_to_generate routes on the merged state
      let r := grade_documents st.documents o.docGradeCall
      let st' := { st with documents := r.1, webSearchFlag := r.2 }
      GNode.gradeDocuments ::
        runTrace o fuel genIdx webIdx
          (decide_edge_target (decide_to_generate st'.webSearchFlag)) st'
  | fuel + 1, genIdx, webIdx, GNode.websearch, st =>
      -- web_search returns {"documents": documents + [tavily document]},
      -- then the static edge websearch → generate
      let st' := { st with
        documents := web_search st.question st.documents
          (o.webResults webIdx) (o.webTimestamp webIdx) }
      GNode.websearch :: runTrace o fuel genIdx (webIdx + 1) GNode.generate st'
  | fuel + 1, genIdx, webIdx, GNode.generate, st =>
      -- generate returns {"generation": answer, "loop_step": loop_step + 1};
      -- the additive channel merges it, then grade_generation routes on the
      -- merged state
      let st' := { st with
        loopStep := loop_step_after_generate st.loopStep,
        generation := some (generate st.loopStep (o.genAnswer genIdx)).1 }
      let label := grade_generation_v_documents_and_question
        (o.hallCall genIdx) (o.ansCall genIdx) st'.loopStep st'.maxRetries
      GNode.generate ::
        runTrace o fuel (genIdx + 1) webIdx (grade_edge_target label) st'

/-- One whole run: `GraphMain.stream` seeds the state with the question
and `max_retries` only, so the `loop_step` channel starts at its `int()`
default 0 and no documents or generation exist yet; the conditional entry
point routes the question. -/
def graphRun (o : Oracle) (question : String) (max_retries fuel : Nat) :
    List GNode :=
  runTrace o fuel 0 0 (entry_target (route_question o.routeCall))
    { question := question, loopStep := 0, maxRetries := max_retries,
      webSearchFlag := "", documents := [], generation := none }

/-! Heap view of the nodes (for the frame/side-effect contract)

Python lists are mutable heap objects shared by reference.  `DocStore`
models the heap cells holding lists of `Document`; a state's `documents`
field is a reference (cell index) into it.  Each node-effect function
below mirrors exactly which list objects the node's body reads,
allocates, and mutates. -/

/-- The heap of live Python `list[Document]` objects; a reference is an
index into `cells`. -/
structure DocStore where
  cells : List (List Document)
  deriving Repr

/-- Dereference a list object. -/
def read_cell (st : DocStore) (r : Nat) : List Document :=
  st.cells.getD r []

/-- In-place mutation of a list object (what `list.append` does). -/
def write_cell (st : DocStore) (r : Nat) (v : List Document) : DocStore :=
  ⟨st.cells.set r v⟩

/-- Allocation of a fresh list object (a list literal, or a new list
returned by a callee). -/
def alloc_cell (st : DocStore) (v : List Document) : DocStore × Nat :=
  (⟨st.cells ++ [v]⟩, st.cells.length)

/-- Embedding of `retrieve` (graph_func.py:94-140) at heap level: `retriever.invoke`
returns a fresh list, and the delta references it; no existing list is
touched. -/
def retrieve_effect (st : DocStore) (retrieved : List Document) :
    DocStore × Nat :=
  alloc_cell st retrieved

/-- Embedding of `grade_documents` (graph_func.py:209-300) at heap level:
`filtered_documents = []` allocates a fresh list, the loop appends into
that fresh list only, and the delta references it; the input state's
list is read but never written. -/
def grade_documents_effect (st : DocStore) (docsRef : Nat)
    (resp : Nat → StructuredCall) : DocStore × Nat × String :=
  let filtered := grade_documents_filter resp (read_cell st docsRef) 0
  let a := alloc_cell st filtered
  (a.1, a.2, if filtered.length = 0 then "yes" else "no")

/-- Embedding of `generate` (graph_func.py:143-206) at heap level: the documents list
is only read (formatted into the prompt); the heap is unchanged and the
delta carries the generation and the `loop_step` contribution. -/
def generate_effect (st : DocStore) (_docsRef : Nat) (loop_step : Nat)
    (answer : String) : DocStore × String × Nat :=
  (st, generate loop_step answer)

/-- Embedding of `web_search` (graph_func.py:303-354) at heap level:
`documents = state.get("documents", [])` obtains the state's own list
object, `documents.append(search_result["content"])` mutates that object
in place, and the returned delta references the very same object. -/
def web_search_effect (question : String) (st : DocStore) (docsRef : Nat)
    (results : List TavilyResult) (timestamp : String) : DocStore × Nat :=
  (write_cell st docsRef
     (read_cell st docsRef ++ [tavily_search_document question results timestamp]),
   docsRef)

/-! Streaming adapter (src/api/routers/chat.py, `process_graph_events`)

The adapter iterates the state snapshots the executor yields
(`stream_mode="values"`), keeping two pieces of local state
(`current_generation`, `documents_sent`), and converts them into SSE
events.  Wall-clock timestamps are elided from the payloads.  A fatal
failure of the underlying iteration is modelled by the point at which it
happens: `snaps` are the snapshots yielded before the failure, and
`failure` carries the exception message when the run failed
(`except Exception` around the whole generator body). -/

/-- A state snapshot as the adapter sees it: each field is `some` iff
the corresponding key is present in the emitted state dict.  `generation`
holds the content of the `AIMessage` when present (message objects are
truthy, so `event["generation"]` passes the truthiness test whenever the
key exists).  Documents are carried as their texts, which is how
chat.py:226-229 consumes them (`doc[:200]`, `len(doc)`). -/
structure Snapshot where
  loopStep : Option Nat
  answers : Option Nat
  maxRetries : Option Nat
  webSearchFlag : Option String
  documents : Option (List String)
  generation : Option String
  deriving DecidableEq, Repr

/-- The adapter's SSE events (chat.py), timestamps elided. -/
inductive SseEvent
  | start (query : String)
  | workflowStep (loop_step answers max_retries : Nat) (webSearchFlag : String)
  | documents (count : Nat) (texts : List String)
  | chunk (content : String) (total_length : Nat)
  | done (final_answer : String)
  | error (message : String)
  deriving DecidableEq, Repr

/-- The adapter's loop-local state. -/
structure AdapterState where
  currentGeneration : String
  documentsSent : Bool
  deriving DecidableEq, Repr

/-- Truncation `doc[:200] + "..." if len(doc) > 200 else doc` (chat.py:226). -/
def truncate_doc (doc : String) : String :=
  if 200 < doc.length then str_slice_to doc 200 ++ "..." else doc

/-- The `workflow_step` branch (chat.py:208-216): emitted when workflow
updates were requested and the snapshot has a `loop_step` key; the other
payload fields fall back to their `.get` defaults. -/
def workflow_step_events (req_max_retries : Nat) (include_workflow : Bool)
    (s : Snapshot) : List SseEvent :=
  match include_workflow, s.loopStep with
  | true, some ls =>
      [SseEvent.workflowStep ls (s.answers.getD 0) (s.maxRetries.getD req_max_retries)
        (s.webSearchFlag.getD "")]
  | _, _ => []

/-- The `documents` branch (chat.py:219-234): at most one `documents`
event per run, emitted the first time a non-empty documents list is seen;
returns the updated `documents_sent` flag. -/
def documents_step (include_sources sent : Bool) (s : Snapshot) :
    Bool × List SseEvent :=
  match include_sources && !sent, s.documents with
  | true, some docs =>
      if docs.isEmpty then (sent, [])
      else (true, [SseEvent.documents docs.length ((docs.take 5).map truncate_doc)])
  | _, _ => (sent, [])

/-- The `chunk` branch (chat.py:237-259): when the generation text
changed, emit the html-escaped suffix
`generation_text[len(current_generation):]` with the new total length,
and record the new text; returns the updated `current_generation`. -/
def chunk_step (current_generation : String) (s : Snapshot) :
    String × List SseEvent :=
  match s.generation with
  | some generation_text =>
      if generation_text = current_generation then (current_generation, [])
      else
        (generation_text,
         [SseEvent.chunk
            (sanitize_html (str_slice_from generation_text current_generation.length))
            generation_text.length])
  | none => (current_generation, [])

/-- Processing of a single snapshot by the loop body of
`process_graph_events` (chat.py:206-259), in emission order:
workflow step, documents, chunk. -/
def snapshot_events (req_max_retries : Nat) (include_workflow include_sources : Bool)
    (acc : AdapterState) (s : Snapshot) : AdapterState × List SseEvent :=
  let docsStep := documents_step include_sources acc.documentsSent s
  let chunkStep := chunk_step acc.currentGeneration s
  (⟨chunkStep.1, docsStep.1⟩,
   workflow_step_events req_max_retries include_workflow s ++ docsStep.2 ++ chunkStep.2)

/-- The adapter's loop over the consumed snapshots, threading the loop
state and collecting events in emission order. -/
def adapter_body (req_max_retries : Nat) (include_workflow include_sources : Bool) :
    AdapterState → List Snapshot → AdapterState × List SseEvent
  | acc, [] => (acc, [])
  | acc, s :: rest =>
      let step := snapshot_events req_max_retries include_workflow include_sources acc s
      let tail := adapter_body req_max_retries include_workflow include_sources step.1 rest
      (tail.1, step.2 ++ tail.2)

/-- Embedding of `process_graph_events` (chat.py:178-276): `start` first, then the
loop over the snapshots; if the iteration raised after the consumed
snapshots, the generator's `except Exception` emits a single `error`
event and the stream ends; otherwise a single `done` event with the last
recorded generation closes the stream. -/
def process_graph_events (query : String) (req_max_retries : Nat)
    (include_workflow include_sources : Bool) (snaps : List Snapshot)
    (failure : Option String) : List SseEvent :=
  let body := adapter_body req_max_retries include_workflow include_sources
    ⟨"", false⟩ snaps
  SseEvent.start query ::
    body.2 ++
      (match failure with
       | some msg => [SseEvent.error msg]
       | none => [SseEvent.done body.1.currentGeneration])

/-- Event classifier: the stream-closing events `done` and `error`. -/
def is_terminal_event : SseEvent → Bool
  | SseEvent.done _ => true
  | SseEvent.error _ => true
  | _ => false

/-- Event classifier: `chunk` events. -/
def is_chunk_event : SseEvent → Bool
  | SseEvent.chunk _ _ => true
  | _ => false

/-! Claims -/

/-- C1.  The claim says each `generate` invocation advances the merged
`loop_step` by exactly 1 (a delta of `+1`, added by the accumulator), so
that after `n` invocations the counter equals its initial value plus `n`.
In the code `generate` returns `loop_step + 1` — the *current* value plus
one — as its delta, and the `operator.add` channel adds that delta back
onto the current value, so the merged counter after one pass from `s` is
`2*s + 1` and after `n` passes from `s` it is `2^n * (s+1) - 1`: already
at the second invocation from the initial 0 the counter is 3, not 2. -/
theorem loop_step_merge_doubles :
    (∀ n s : Nat, loop_step_after_generate^[n] s = 2 ^ n * (s + 1) - 1) ∧
    loop_step_after_generate^[2] 0 = 3 ∧ (0 + 2 : Nat) ≠ 3 := by
  refine ⟨?_, by decide, by decide⟩
  intro n
  induction n with
  | zero => intro s; simp
  | succ k ih =>
      intro s
      rw [Function.iterate_succ_apply', ih]
      unfold loop_step_after_generate merge_loop_step generate
      have h1 : 0 < 2 ^ k * (s + 1) := by positivity
      have h2 : 2 ^ (k + 1) * (s + 1) = 2 * (2 ^ k * (s + 1)) := by ring
      set m := 2 ^ k * (s + 1) with hm
      rw [h2]
      omega

/-- C2 counterexample.  With the hallucination check's JSON failing to
parse, `loop_step = 1` and `max_retries = 3`, the router returns
`"not supported"`, not `"max retries"`: a `json.JSONDecodeError` only
sets the grade to `"no"`. -/
theorem grade_generation_parse_failure_counterexample :
    grade_generation_v_documents_and_question (StructuredCall.returned ParsedJson.notJson)
      (StructuredCall.returned (ParsedJson.obj [("binary_score", "yes")])) 1 3 =
      "not supported" ∧ "not supported" ≠ "max retries" := by
  exact ⟨by decide, by decide⟩

/-- C2 amended.  A JSON parse failure in a check makes that check's grade
default to `"no"`; the router therefore returns `"max retries"` on a
parse failure only when `loop_step > max_retries`.  Otherwise an
unparseable hallucination check yields `"not supported"` and — with the
hallucination check grounded — an unparseable answer check yields
`"not useful"`.  (A *transport* failure of either call, by contrast,
escapes to the outer handler and yields `"max retries"` unconditionally.) -/
theorem grade_generation_parse_failure_defaults_no :
    (∀ (ans : StructuredCall) (ls mr : Nat),
      grade_generation_v_documents_and_question (StructuredCall.returned ParsedJson.notJson)
        ans ls mr = if ls ≤ mr then "not supported" else "max retries") ∧
    (∀ ls mr : Nat,
      grade_generation_v_documents_and_question
        (StructuredCall.returned (ParsedJson.obj [("binary_score", "yes")]))
        (StructuredCall.returned ParsedJson.notJson) ls mr =
        if ls ≤ mr then "not useful" else "max retries") ∧
    (∀ (ans : StructuredCall) (ls mr : Nat),
      grade_generation_v_documents_and_question StructuredCall.raised ans ls mr =
        "max retries") := by
  refine ⟨?_, ?_, ?_⟩
  · intro ans ls mr
    have h : binary_score_of (StructuredCall.returned ParsedJson.notJson) =
        GradeOutcome.grade "no" := rfl
    simp only [grade_generation_v_documents_and_question, h,
      show py_lower "no" = "yes" ↔ False by simpa using by decide]
    simp
  · intro ls mr
    have h : binary_score_of
        (StructuredCall.returned (ParsedJson.obj [("binary_score", "yes")])) =
        GradeOutcome.grade "yes" := by decide
    have h2 : binary_score_of (StructuredCall.returned ParsedJson.notJson) =
        GradeOutcome.grade "no" := rfl
    simp only [grade_generation_v_documents_and_question, h, h2,
      show py_lower "yes" = "yes" from by decide,
      show py_lower "no" = "yes" ↔ False by simpa using by decide]
    simp
  · intro ans ls mr
    rfl

/-- The executor does nothing once `END` is reached. -/
lemma runTrace_terminal (o : Oracle) (fuel genIdx webIdx : Nat) (st : RunState) :
    runTrace o fuel genIdx webIdx GNode.terminal st = [] := by
  cases fuel <;> rfl

/-- The router `grade_generation_v_documents_and_question` returns a non-terminal
label (`"not supported"` or `"not useful"`) only under its continuation
predicate `loop_step <= max_retries`. -/
lemma grade_generation_label_cases (hall ans : StructuredCall) (ls mr : Nat) :
    grade_generation_v_documents_and_question hall ans ls mr = "useful" ∨
    grade_generation_v_documents_and_question hall ans ls mr = "max retries" ∨
    ((grade_generation_v_documents_and_question hall ans ls mr = "not supported" ∨
      grade_generation_v_documents_and_question hall ans ls mr = "not useful") ∧
      ls ≤ mr) := by
  unfold grade_generation_v_documents_and_question
  cases binary_score_of hall with
  | exnToOuter => simp
  | grade hg =>
      by_cases h1 : py_lower hg = "yes" <;> simp only [h1, if_true, if_false, ite_true, ite_false]
      · cases binary_score_of ans with
        | exnToOuter => simp
        | grade ag =>
            by_cases h2 : py_lower ag = "yes" <;>
              simp only [h2, ite_true, ite_false]
            · simp
            · by_cases h3 : ls ≤ mr <;> simp [h3]
      · by_cases h3 : ls ≤ mr <;> simp [h3]

/-- The conditional edge out of `generate` either goes to `END`, or the
continuation predicate held at the merged state. -/
lemma grade_edge_cases (hall ans : StructuredCall) (ls mr : Nat) :
    grade_edge_target (grade_generation_v_documents_and_question hall ans ls mr) =
      GNode.terminal ∨ ls ≤ mr := by
  rcases grade_generation_label_cases hall ans ls mr with h | h | ⟨h, hle⟩
  · left; rw [h]; decide
  · left; rw [h]; decide
  · right; exact hle

/-- Main invariant for the generation bound: from any node and merged
state, the remaining trace contains at most
`(max_retries - loop_step) + 1` `generate` passes.  Each `generate` pass
strictly increases `loop_step` (the additive merge adds `loop_step + 1 ≥ 1`),
and the run re-enters `generate` only when
`grade_generation_v_documents_and_question` returned a non-terminal
label, which requires `loop_step ≤ max_retries` at the merged state. -/
lemma runTrace_generate_count (o : Oracle) :
    ∀ (fuel genIdx webIdx : Nat) (node : GNode) (st : RunState),
      (runTrace o fuel genIdx webIdx node st).count GNode.generate ≤
        (st.maxRetries - st.loopStep) + 1 := by
  intro fuel
  induction fuel with
  | zero => intro genIdx webIdx node st; simp [runTrace]
  | succ f ih =>
      intro genIdx webIdx node st
      cases node with
      | terminal => simp [runTrace]
      | retrieve =>
          simp only [runTrace, List.count_cons]
          have := ih genIdx webIdx GNode.gradeDocuments { st with documents := o.retrieved }
          simpa using this
      | gradeDocuments =>
          simp only [runTrace, List.count_cons]
          have := ih genIdx webIdx
            (decide_edge_target (decide_to_generate
              (grade_documents st.documents o.docGradeCall).2))
            { st with documents := (grade_documents st.documents o.docGradeCall).1,
                      webSearchFlag := (grade_documents st.documents o.docGradeCall).2 }
          simpa using this
      | websearch =>
          simp only [runTrace, List.count_cons]
          have := ih genIdx (webIdx + 1) GNode.generate
            { st with documents := (web_search st.question st.documents
                (o.webResults webIdx) (o.webTimestamp webIdx)) }
          simpa using this
      | generate =>
          simp only [runTrace, List.count_cons]
          have hs : st.loopStep + 1 ≤ loop_step_after_generate st.loopStep := by
            unfold loop_step_after_generate merge_loop_step generate
            omega
          rcases grade_edge_cases (o.hallCall genIdx) (o.ansCall genIdx)
              (loop_step_after_generate st.loopStep) st.maxRetries with h | h
          · rw [h, runTrace_terminal]
            simp
          · have hb := ih (genIdx + 1) webIdx
              (grade_edge_target (grade_generation_v_documents_and_question
                (o.hallCall genIdx) (o.ansCall genIdx)
                (loop_step_after_generate st.loopStep) st.maxRetries))
              { st with loopStep := loop_step_after_generate st.loopStep,
                        generation := some (generate st.loopStep (o.genAnswer genIdx)).1 }
            simp only at hb
            simp only [beq_self_eq_true, if_true]
            omega

/-- C3.  For every run (any oracle for the retriever, language model and
web search, any fuel) with `max_retries ≥ 1`, the number of `generate`
node executions is at most `max_retries + 1`: every cycle of the graph
passes through `generate`, whose merged `loop_step` strictly increases,
and `grade_generation_v_documents_and_question` emits a non-terminal
label only while `loop_step ≤ max_retries`. -/
theorem generate_invocations_le_max_retries_succ (o : Oracle) (question : String)
    (max_retries fuel : Nat) (_h : 1 ≤ max_retries) :
    (graphRun o question max_retries fuel).count GNode.generate ≤ max_retries + 1 := by
  have := runTrace_generate_count o fuel 0 0
    (entry_target (route_question o.routeCall))
    { question := question, loopStep := 0, maxRetries := max_retries,
      webSearchFlag := "", documents := [], generation := none }
  simpa [graphRun] using this

/-- A concrete environment: the router picks the vectorstore, one
document is retrieved, and the first generation is graded grounded and
useful. -/
def happy_path_oracle : Oracle :=
  { routeCall := StructuredCall.returned (ParsedJson.obj [("datasource", "vectorstore")]),
    retrieved := [{ page_content := "chunk", metadata := [] }],
    docGradeCall := fun _ => StructuredCall.returned (ParsedJson.obj [("binary_score", "yes")]),
    genAnswer := fun _ => "answer",
    hallCall := fun _ => StructuredCall.returned (ParsedJson.obj [("binary_score", "yes")]),
    ansCall := fun _ => StructuredCall.returned (ParsedJson.obj [("binary_score", "yes")]),
    webResults := fun _ => [{ content := "snippet", url := "u" }],
    webTimestamp := fun _ => "t" }

/-- Witness for C3 at a concrete run. -/
theorem generate_invocations_le_max_retries_succ_witness :
    1 ≤ 3 ∧
    (graphRun happy_path_oracle "what is a vector index" 3 12).count GNode.generate ≤
      3 + 1 :=
  ⟨by decide,
   generate_invocations_le_max_retries_succ happy_path_oracle
     "what is a vector index" 3 12 (by decide)⟩

example :
    graphRun happy_path_oracle "q" 3 12 =
      [GNode.retrieve, GNode.gradeDocuments, GNode.generate] := by decide

/-- Events of the `workflow_step` branch are neither chunks nor stream closers. -/
lemma workflow_step_events_middle (mr : Nat) (iw : Bool) (s : Snapshot) :
    ∀ e ∈ workflow_step_events mr iw s,
      is_chunk_event e = false ∧ is_terminal_event e = false := by
  cases iw <;> cases hl : s.loopStep <;>
    simp [workflow_step_events, hl, is_chunk_event, is_terminal_event]

/-- Events of the `documents` branch are neither chunks nor stream closers. -/
lemma documents_step_middle (incS sent : Bool) (s : Snapshot) :
    ∀ e ∈ (documents_step incS sent s).2,
      is_chunk_event e = false ∧ is_terminal_event e = false := by
  unfold documents_step
  cases hb : (incS && !sent) <;> cases hd : s.documents <;>
    simp [is_chunk_event, is_terminal_event]
  split <;> simp [is_chunk_event, is_terminal_event]

/-- Events of the `chunk` branch never close the stream. -/
lemma chunk_step_middle (cur : String) (s : Snapshot) :
    ∀ e ∈ (chunk_step cur s).2, is_terminal_event e = false := by
  unfold chunk_step
  cases hg : s.generation <;> simp [is_terminal_event]
  split <;> simp [is_terminal_event]

/-- The per-snapshot events never close the stream. -/
lemma snapshot_events_not_terminal (mr : Nat) (iw incS : Bool)
    (acc : AdapterState) (s : Snapshot) :
    ∀ e ∈ (snapshot_events mr iw incS acc s).2, is_terminal_event e = false := by
  intro e he
  simp only [snapshot_events, List.mem_append] at he
  rcases he with (hw | hd) | hc
  · exact (workflow_step_events_middle mr iw s e hw).2
  · exact (documents_step_middle incS acc.documentsSent s e hd).2
  · exact chunk_step_middle acc.currentGeneration s e hc

/-- No event of the adapter's loop body closes the stream. -/
lemma adapter_body_not_terminal (mr : Nat) (iw incS : Bool) :
    ∀ (snaps : List Snapshot) (acc : AdapterState),
      ∀ e ∈ (adapter_body mr iw incS acc snaps).2, is_terminal_event e = false := by
  intro snaps
  induction snaps with
  | nil => intro acc e he; simp [adapter_body] at he
  | cons s rest ih =>
      intro acc e he
      simp only [adapter_body, List.mem_append] at he
      rcases he with h | h
      · exact snapshot_events_not_terminal mr iw incS acc s e h
      · exact ih _ e h

/-- Last element of `a :: (l ++ [b])` is `b`. -/
lemma getLast?_cons_append_singleton {α : Type} (a : α) (l : List α) (b : α) :
    (a :: (l ++ [b])).getLast? = some b := by
  rw [show a :: (l ++ [b]) = (a :: l) ++ [b] from rfl, List.getLast?_concat]

/-- C9.  Every event stream produced by the adapter contains exactly one
stream-closing event (`done` on success, `error` on failure), and that
event is the last element of the stream. -/
theorem process_graph_events_single_terminal (query : String) (mr : Nat)
    (iw incS : Bool) (snaps : List Snapshot) (failure : Option String) :
    ((process_graph_events query mr iw incS snaps failure).countP
        is_terminal_event = 1) ∧
    (∃ e, (process_graph_events query mr iw incS snaps failure).getLast? = some e ∧
      is_terminal_event e = true) := by
  have hbody : (adapter_body mr iw incS ⟨"", false⟩ snaps).2.countP
      is_terminal_event = 0 := by
    refine List.countP_eq_zero.mpr ?_
    intro e he
    simp [adapter_body_not_terminal mr iw incS snaps ⟨"", false⟩ e he]
  unfold process_graph_events
  cases failure with
  | none =>
      refine ⟨?_, ⟨_, getLast?_cons_append_singleton _ _ _, rfl⟩⟩
      simp [List.countP_cons, List.countP_append, hbody, is_terminal_event]
  | some msg =>
      refine ⟨?_, ⟨_, getLast?_cons_append_singleton _ _ _, rfl⟩⟩
      simp [List.countP_cons, List.countP_append, hbody, is_terminal_event]

/-- C4 counterexample.  On the snapshot sequence whose generation goes
`"ab"` and then `"a"` (a shorter full retry), the adapter emits the
events below: the chunk event for the retry carries the *empty* string
(the suffix slice `"a"[2:]`), and no chunk event carrying the new
generation `"a"` in full exists in the stream. -/
theorem process_graph_events_shorter_generation_counterexample :
    process_graph_events "q" 3 false false
        [⟨none, none, none, none, none, some "ab"⟩,
         ⟨none, none, none, none, none, some "a"⟩] none =
      [SseEvent.start "q", SseEvent.chunk "ab" 2, SseEvent.chunk "" 1,
       SseEvent.done "a"] ∧
    SseEvent.chunk "a" 1 ∉ process_graph_events "q" 3 false false
        [⟨none, none, none, none, none, some "ab"⟩,
         ⟨none, none, none, none, none, some "a"⟩] none := by
  constructor
  · rfl
  · decide

/-- C4 amended.  When a snapshot's generation text is strictly shorter
than the previously recorded one, the adapter's loop body emits exactly
one chunk event and its content is the *empty* string (the slice
`generation_text[len(current_generation):]` starts beyond the end of the
new text), with `total_length` the new text's length; the new text is
recorded as the baseline for subsequent chunks (and hence as the final
answer of the `done` event). -/
theorem chunk_on_shorter_generation (mr : Nat) (iw incS : Bool)
    (acc : AdapterState) (s : Snapshot) (g : String)
    (hg : s.generation = some g)
    (hlen : g.length < acc.currentGeneration.length) :
    ((snapshot_events mr iw incS acc s).2.filter is_chunk_event =
      [SseEvent.chunk "" g.length]) ∧
    (snapshot_events mr iw incS acc s).1.currentGeneration = g := by
  have hne : g ≠ acc.currentGeneration := by
    intro h
    rw [h] at hlen
    exact lt_irrefl _ hlen
  have hdrop : str_slice_from g acc.currentGeneration.length = "" := by
    unfold str_slice_from
    have hle : g.data.length ≤ acc.currentGeneration.length := Nat.le_of_lt hlen
    rw [List.drop_eq_nil_of_le hle]
  have hchunk : chunk_step acc.currentGeneration s =
      (g, [SseEvent.chunk "" g.length]) := by
    unfold chunk_step
    rw [hg]
    dsimp only
    rw [if_neg hne, hdrop]
    rfl
  have hwf : (workflow_step_events mr iw s).filter is_chunk_event = [] := by
    refine List.filter_eq_nil_iff.mpr ?_
    intro e he
    simp [(workflow_step_events_middle mr iw s e he).1]
  have hdf : ((documents_step incS acc.documentsSent s).2).filter
      is_chunk_event = [] := by
    refine List.filter_eq_nil_iff.mpr ?_
    intro e he
    simp [(documents_step_middle incS acc.documentsSent s e he).1]
  constructor
  · simp [snapshot_events, List.filter_append, hwf, hdf, hchunk, is_chunk_event]
  · simp [snapshot_events, hchunk]

/-- Witness for the amended C4 at a concrete shorter retry. -/
theorem chunk_on_shorter_generation_witness :
    (Snapshot.mk none none none none none (some "a")).generation = some "a" ∧
    ("a" : String).length < (AdapterState.mk "ab" false).currentGeneration.length ∧
    ((snapshot_events 3 false false (AdapterState.mk "ab" false)
        (Snapshot.mk none none none none none (some "a"))).2.filter is_chunk_event =
      [SseEvent.chunk "" ("a" : String).length]) ∧
    (snapshot_events 3 false false (AdapterState.mk "ab" false)
        (Snapshot.mk none none none none none (some "a"))).1.currentGeneration = "a" :=
  ⟨rfl, by decide,
   (chunk_on_shorter_generation 3 false false (AdapterState.mk "ab" false)
      (Snapshot.mk none none none none none (some "a")) "a" rfl (by decide)).1,
   (chunk_on_shorter_generation 3 false false (AdapterState.mk "ab" false)
      (Snapshot.mk none none none none none (some "a")) "a" rfl (by decide)).2⟩

/-- Every grading outcome keeps the document (see `keep_document`). -/
lemma keep_document_true (call : StructuredCall) : keep_document call = true := by
  cases call <;> rfl

/-- The `grade_documents` loop never drops a document: `json.loads` is
applied to the message object itself, so every iteration ends in the
fail-open handler. -/
lemma grade_documents_filter_eq_self (resp : Nat → StructuredCall) :
    ∀ (docs : List Document) (i : Nat), grade_documents_filter resp docs i = docs := by
  intro docs
  induction docs with
  | nil => intro i; rfl
  | cons d rest ih =>
      intro i
      simp [grade_documents_filter, keep_document_true, ih]

/-- C5.  A document whose grading response is non-JSON, or is a JSON
object without the `binary_score` key, is retained in the documents list
`grade_documents` returns: those responses never reach a successful
parse-and-read, so the fail-open handler keeps the document. -/
theorem grade_documents_soft_failure_retains (docs : List Document)
    (resp : Nat → StructuredCall) (i : Nat) (d : Document)
    (hd : docs.get? i = some d)
    (_hfail : resp i = StructuredCall.returned ParsedJson.notJson ∨
      ∃ fields, resp i = StructuredCall.returned (ParsedJson.obj fields) ∧
        fields.lookup "binary_score" = none) :
    d ∈ (grade_documents docs resp).1 := by
  have h := grade_documents_filter_eq_self resp docs 0
  simp only [grade_documents, h]
  exact List.get?_mem hd

/-- A concrete document for the witnesses below. -/
def sample_document : Document :=
  { page_content := "chunk", metadata := [] }

/-- Witness for C5 at a one-document state whose grading response is
non-JSON. -/
theorem grade_documents_soft_failure_retains_witness :
    ([sample_document].get? 0 = some sample_document) ∧
    ((fun _ : Nat => StructuredCall.returned ParsedJson.notJson) 0 =
        StructuredCall.returned ParsedJson.notJson ∨
      ∃ fields, (fun _ : Nat => StructuredCall.returned ParsedJson.notJson) 0 =
        StructuredCall.returned (ParsedJson.obj fields) ∧
        fields.lookup "binary_score" = none) ∧
    sample_document ∈ (grade_documents [sample_document]
      (fun _ => StructuredCall.returned ParsedJson.notJson)).1 :=
  ⟨rfl, Or.inl rfl,
   grade_documents_soft_failure_retains [sample_document]
     (fun _ => StructuredCall.returned ParsedJson.notJson) 0 sample_document rfl
     (Or.inl rfl)⟩

/-- C6.  `grade_documents` reports `web_search = "yes"` exactly when its
kept documents list is empty, and `"no"` otherwise. -/
theorem grade_documents_web_search_iff_no_kept (docs : List Document)
    (resp : Nat → StructuredCall) :
    ((grade_documents docs resp).2 = "yes" ↔ (grade_documents docs resp).1 = []) ∧
    ((grade_documents docs resp).2 = "no" ↔ (grade_documents docs resp).1 ≠ []) := by
  simp only [grade_documents]
  by_cases h : (grade_documents_filter resp docs 0).length = 0
  · rw [List.length_eq_zero] at h
    simp [h]
  · have hne : grade_documents_filter resp docs 0 ≠ [] := by
      intro hh
      rw [hh] at h
      simp at h
    simp [List.length_eq_zero] at h
    simp [h, hne]

/-- C7 counterexample.  The single document `web_search` appends carries
`metadata["source"] = "tavily_search"`, not `"web_search"`. -/
theorem web_search_source_counterexample :
    (web_search "q" [] [{ content := "s1", url := "u1" }] "t").length = 1 ∧
    (web_search "q" [] [{ content := "s1", url := "u1" }] "t").getLast? =
      some (tavily_search_document "q" [{ content := "s1", url := "u1" }] "t") ∧
    (tavily_search_document "q" [{ content := "s1", url := "u1" }] "t").metadata.lookup
      "source" = some (MetaVal.str "tavily_search") ∧
    MetaVal.str "tavily_search" ≠ MetaVal.str "web_search" := by
  refine ⟨rfl, rfl, rfl, by decide⟩

/-- C7 amended.  For every question, `web_search` appends exactly one new
Document after the existing ones; its text is the newline-concatenation
of the search-result snippets and its metadata `source` is
`"tavily_search"`. -/
theorem web_search_appends_single_tavily_document (question : String)
    (docs : List Document) (results : List TavilyResult) (ts : String) :
    (web_search question docs results ts).length = docs.length + 1 ∧
    (web_search question docs results ts).take docs.length = docs ∧
    (web_search question docs results ts).getLast? =
      some (tavily_search_document question results ts) ∧
    (tavily_search_document question results ts).metadata.lookup "source" =
      some (MetaVal.str "tavily_search") ∧
    (tavily_search_document question results ts).page_content =
      String.intercalate "\n" (results.map TavilyResult.content) := by
  refine ⟨?_, ?_, ?_, rfl, rfl⟩
  · simp [web_search]
  · simp [web_search, List.take_left]
  · simp [web_search, List.getLast?_concat]

/-- C8.  `route_question` answers `"websearch"` exactly when the call
returned a JSON object whose `datasource` value matches `"websearch"`
case-insensitively; in every other case — transport failure, non-JSON,
non-object JSON, missing key, other value — it answers `"vectorstore"`,
and those are the only two possible labels. -/
theorem route_question_websearch_iff (call : StructuredCall) :
    (route_question call = "websearch" ↔
      ∃ fields v, call = StructuredCall.returned (ParsedJson.obj fields) ∧
        fields.lookup "datasource" = some v ∧ py_lower v = "websearch") ∧
    (route_question call = "websearch" ∨ route_question call = "vectorstore") := by
  constructor
  · cases call with
    | raised => simp [route_question]
    | returned p =>
        cases p with
        | notJson => simp [route_question]
        | notObj => simp [route_question]
        | obj fields =>
            cases hl : fields.lookup "datasource" with
            | none =>
                simp only [route_question, hl, Option.getD_none,
                  show py_lower "vectorstore" = "websearch" ↔ False by
                    simp only [iff_false]; decide]
                simp only [if_false]
                constructor
                · intro h; exact absurd h (by decide)
                · rintro ⟨f, v, hf, hv, _⟩
                  obtain rfl : fields = f := by
                    injection hf with hf2
                    injection hf2
                  rw [hl] at hv
                  cases hv
            | some v =>
                by_cases hlow : py_lower v = "websearch"
                · simp only [route_question, hl, Option.getD_some, hlow, if_true]
                  constructor
                  · intro _; exact ⟨fields, v, rfl, hl, hlow⟩
                  · intro _; trivial
                · simp only [route_question, hl, Option.getD_some, hlow, if_false]
                  constructor
                  · intro h; exact absurd h (by decide)
                  · rintro ⟨f, w, hf, hw, hwl⟩
                    obtain rfl : fields = f := by
                      injection hf with hf2
                      injection hf2
                    rw [hl] at hw
                    cases hw
                    exact absurd hwl hlow
  · cases call with
    | raised => right; rfl
    | returned p =>
        cases p with
        | notJson => right; rfl
        | notObj => right; rfl
        | obj fields =>
            by_cases h : py_lower ((fields.lookup "datasource").getD "vectorstore") =
              "websearch"
            · left; simp [route_question, h]
            · right; simp [route_question, h]

/-- Reading with `getD` through a left append, in range. -/
lemma getD_append_left {α : Type} (l l2 : List α) (r : Nat) (d : α)
    (h : r < l.length) : (l ++ l2).getD r d = l.getD r d := by
  induction l generalizing r with
  | nil => simp at h
  | cons a t ih =>
      cases r with
      | zero => rfl
      | succ k => simpa [List.getD_cons_succ] using ih k (by simpa using h)

/-- Reading with `getD` after an in-range `set` returns the written value. -/
lemma getD_set_self {α : Type} (l : List α) (r : Nat) (v d : α)
    (h : r < l.length) : (l.set r v).getD r d = v := by
  induction l generalizing r with
  | nil => simp at h
  | cons a t ih =>
      cases r with
      | zero => rfl
      | succ k => simpa [List.getD_cons_succ] using ih k (by simpa using h)

/-- C10 counterexample.  Run `web_search` on a heap with a single
documents list referenced by the input state: afterwards, the list
object the input state holds has changed (the Tavily document was
appended to it in place), and the returned delta references that same
object. -/
theorem web_search_mutates_documents_counterexample :
    read_cell ((web_search_effect "q" (DocStore.mk [[sample_document]]) 0
        [{ content := "s", url := "u" }] "t").1) 0 ≠
      read_cell (DocStore.mk [[sample_document]]) 0 ∧
    (web_search_effect "q" (DocStore.mk [[sample_document]]) 0
        [{ content := "s", url := "u" }] "t").2 = 0 := by
  refine ⟨by decide, rfl⟩

/-- C10 amended.  `retrieve`, `grade_documents` and `generate` leave
every existing list object — in particular the one the input state's
`documents` field references — untouched and communicate only through
their returned deltas; `web_search`, however, appends the search-result
document to the input state's documents list *in place*, and its delta
aliases that same list. -/
theorem nodes_frame_effects :
    (∀ (st : DocStore) (retrieved : List Document) (r : Nat),
      r < st.cells.length →
      read_cell (retrieve_effect st retrieved).1 r = read_cell st r) ∧
    (∀ (st : DocStore) (docsRef : Nat) (resp : Nat → StructuredCall) (r : Nat),
      r < st.cells.length →
      read_cell (grade_documents_effect st docsRef resp).1 r = read_cell st r) ∧
    (∀ (st : DocStore) (docsRef loop_step : Nat) (answer : String),
      (generate_effect st docsRef loop_step answer).1 = st) ∧
    (∀ (question : String) (st : DocStore) (docsRef : Nat)
      (results : List TavilyResult) (ts : String),
      docsRef < st.cells.length →
      read_cell (web_search_effect question st docsRef results ts).1 docsRef =
        read_cell st docsRef ++ [tavily_search_document question results ts] ∧
      (web_search_effect question st docsRef results ts).2 = docsRef) := by
  refine ⟨?_, ?_, ?_, ?_⟩
  · intro st retrieved r h
    simp only [retrieve_effect, alloc_cell, read_cell]
    exact getD_append_left st.cells [retrieved] r [] h
  · intro st docsRef resp r h
    simp only [grade_documents_effect, alloc_cell, read_cell]
    exact getD_append_left st.cells _ r [] h
  · intro st docsRef loop_step answer
    rfl
  · intro question st docsRef results ts h
    refine ⟨?_, rfl⟩
    simp only [web_search_effect, write_cell, read_cell]
    exact getD_set_self st.cells docsRef _ [] h

/-- Witness for the amended C10 at a concrete one-cell heap. -/
theorem nodes_frame_effects_witness :
    (0 < (DocStore.mk [[sample_document]]).cells.length ∧
      read_cell (retrieve_effect (DocStore.mk [[sample_document]]) []).1 0 =
        read_cell (DocStore.mk [[sample_document]]) 0) ∧
    (0 < (DocStore.mk [[sample_document]]).cells.length ∧
      read_cell (web_search_effect "q" (DocStore.mk [[sample_document]]) 0 [] "t").1 0 =
        read_cell (DocStore.mk [[sample_document]]) 0 ++
          [tavily_search_document "q" [] "t"]) :=
  ⟨⟨by decide, nodes_frame_effects.1 (DocStore.mk [[sample_document]]) [] 0 (by decide)⟩,
   ⟨by decide,
    (nodes_frame_effects.2.2.2 "q" (DocStore.mk [[sample_document]]) 0 [] "t"
      (by decide)).1⟩⟩
